import Mathlib

/-!
Shallow embedding of the aft-network-testing repository (connectivity.py,
reachability.py, orchestrator.py, baseline.py) together with theorems that
settle the spec's claims about it.  Every definition is translated from the
Python source; definitions whose names end in `Spec` are written from the
spec's words for comparison.
-/

set_option maxRecDepth 4000


/-- `ConnectionType` enum from models.py. -/
inductive ConnectionType where
  | transit_gateway
  | vpc_peering
  | vpn
  | direct_connect
  | privatelink
deriving DecidableEq, Repr

/-- `TestResult` enum from models.py. -/
inductive TestResult where
  | pass
  | fail
  | warn
  | skip
deriving DecidableEq, Repr

/-! ## Baseline data (security-group rules), connectivity.py helpers -/

/-- One ingress/egress rule dict of a security group as read by
`_get_allowed_ports_for_vpc` (`rule.get('protocol', '-1')`,
`rule.get('from_port')`, `rule.get('to_port')`; the ports may be absent). -/
structure SGRule where
  protocol : String
  from_port : Option Int
  to_port : Option Int
deriving DecidableEq, Repr

/-- A security-group dict of a baseline: `ingress_rules` and `egress_rules`. -/
structure SecurityGroup where
  ingress_rules : List SGRule
  egress_rules : List SGRule
deriving DecidableEq, Repr

/-- One entry of a baseline's flattened `allowed_ports` list
(`SecurityGroupRule` dataclass; `rule.get('from_port', 0)` defaults to 0,
so a missing port is modelled as 0, which is falsy in the source). -/
structure PortRule where
  protocol : String
  from_port : Int
  to_port : Int
deriving DecidableEq, Repr

/-- The slice of a baseline dict used by `_get_allowed_ports_for_vpc`:
`b['vpc']['vpc_id']`, `b['security_groups']`, `b['allowed_ports']`. -/
structure Baseline where
  vpc_id : String
  security_groups : List SecurityGroup
  allowed_ports : List PortRule
deriving DecidableEq, Repr

/-- Rule direction selector (the `direction` string argument). -/
inductive Direction where
  | ingress
  | egress
deriving DecidableEq, Repr

/-- Select a security group's rule list for a direction
(`sg.get(f'{direction}_rules', [])`). -/
def SecurityGroup.rulesFor (sg : SecurityGroup) : Direction → List SGRule
  | .ingress => sg.ingress_rules
  | .egress => sg.egress_rules

/-- The fixed common-port set added for protocol `-1`
(connectivity.py line 451). -/
def commonPorts : Finset Int := {22, 80, 443, 3306, 5432, 8080, 8443}

/-- Ports contributed by one security-group rule in
`_get_allowed_ports_for_vpc`: non-TCP/UDP protocols are skipped except `-1`
which adds `commonPorts`; a range of width at most 1000 is added whole
(`range(from_port, to_port + 1)`), a wider range contributes only its two
endpoints. -/
def sgRulePorts (r : SGRule) : Finset Int :=
  if r.protocol ∉ (["tcp", "udp", "6", "17"] : List String) then
    if r.protocol = "-1" then commonPorts else ∅
  else
    match r.from_port, r.to_port with
    | some fp, some tp =>
        if tp - fp ≤ 1000 then Finset.Icc fp tp else {fp, tp}
    | _, _ => ∅

/-- Ports contributed by one `allowed_ports` entry: only `tcp`/`udp`,
both ports truthy (non-zero) and range width at most 1000. -/
def portRulePorts (r : PortRule) : Finset Int :=
  if r.protocol ∈ (["tcp", "udp"] : List String) then
    if r.from_port ≠ 0 ∧ r.to_port ≠ 0 ∧ r.to_port - r.from_port ≤ 1000 then
      Finset.Icc r.from_port r.to_port
    else ∅
  else ∅

/-- `ConnectivityDiscovery._get_allowed_ports_for_vpc`: find the first
baseline whose VPC id matches, and union the ports of all of its
security-group rules in the given direction plus its `allowed_ports`
entries.  Empty baselines or no matching baseline yield the empty set. -/
def getAllowedPortsForVpc (vpc_id : String) (baselines : List Baseline)
    (direction : Direction) : Finset Int :=
  if baselines = [] then ∅
  else
    match baselines.find? (fun b => b.vpc_id = vpc_id) with
    | none => ∅
    | some b =>
        (b.security_groups.foldl
          (fun acc sg => (sg.rulesFor direction).foldl
            (fun acc2 r => acc2 ∪ sgRulePorts r) acc) ∅)
        ∪ (b.allowed_ports.foldl (fun acc r => acc ∪ portRulePorts r) ∅)

/-- `ConnectivityDiscovery._calculate_allowed_ports`: intersection of the
source VPC's egress set and the destination VPC's ingress set, with an empty
side falling back to the other side. -/
def calculateAllowedPorts (source_vpc dest_vpc : String)
    (baselines : List Baseline) : Finset Int :=
  if baselines = [] then ∅
  else
    let source_egress := getAllowedPortsForVpc source_vpc baselines .egress
    let dest_ingress := getAllowedPortsForVpc dest_vpc baselines .ingress
    if source_egress = ∅ ∧ dest_ingress = ∅ then ∅
    else if source_egress = ∅ then dest_ingress
    else if dest_ingress = ∅ then source_egress
    else source_egress ∩ dest_ingress


/-! ## C1: allowed-port computation -/

/-- Concrete baselines: source VPC egress allows only port 22, destination
VPC ingress allows only port 443, so the two sides are non-empty but
disjoint. -/
def cexC1Baselines : List Baseline :=
  [⟨"vpc-a", [⟨[], [⟨"tcp", some 22, some 22⟩]⟩], []⟩,
   ⟨"vpc-b", [⟨[⟨"tcp", some 443, some 443⟩], []⟩], []⟩]

/-- C1 counterexample: with non-empty baselines, both the source egress set
and the destination ingress set non-empty, `_calculate_allowed_ports` still
returns the empty set (the sides are disjoint), contradicting the claim that
the result is empty only when both sides are empty. -/
theorem calculate_allowed_ports_empty_with_nonempty_sides :
    calculateAllowedPorts "vpc-a" "vpc-b" cexC1Baselines = ∅
    ∧ getAllowedPortsForVpc "vpc-a" cexC1Baselines .egress ≠ ∅
    ∧ getAllowedPortsForVpc "vpc-b" cexC1Baselines .ingress ≠ ∅ := by
  decide

/-- C1 (amended): for a non-empty baselines list, `_calculate_allowed_ports`
returns the intersection of the source egress set and the destination
ingress set when both are non-empty, falls back to the non-empty side when
exactly one is empty, and is empty exactly when both sides are empty or the
two non-empty sides are disjoint. -/
theorem calculate_allowed_ports_cases (s d : String) (B : List Baseline)
    (hB : B ≠ []) :
    (getAllowedPortsForVpc s B .egress ≠ ∅ →
      getAllowedPortsForVpc d B .ingress ≠ ∅ →
      calculateAllowedPorts s d B =
        getAllowedPortsForVpc s B .egress ∩ getAllowedPortsForVpc d B .ingress)
    ∧ (getAllowedPortsForVpc s B .egress = ∅ →
        getAllowedPortsForVpc d B .ingress ≠ ∅ →
        calculateAllowedPorts s d B = getAllowedPortsForVpc d B .ingress)
    ∧ (getAllowedPortsForVpc d B .ingress = ∅ →
        getAllowedPortsForVpc s B .egress ≠ ∅ →
        calculateAllowedPorts s d B = getAllowedPortsForVpc s B .egress)
    ∧ (calculateAllowedPorts s d B = ∅ ↔
        (getAllowedPortsForVpc s B .egress = ∅ ∧
         getAllowedPortsForVpc d B .ingress = ∅)
        ∨ (getAllowedPortsForVpc s B .egress ≠ ∅ ∧
           getAllowedPortsForVpc d B .ingress ≠ ∅ ∧
           getAllowedPortsForVpc s B .egress ∩
             getAllowedPortsForVpc d B .ingress = ∅)) := by
  unfold calculateAllowedPorts
  rw [if_neg hB]
  by_cases h1 : getAllowedPortsForVpc s B .egress = ∅ <;>
    by_cases h2 : getAllowedPortsForVpc d B .ingress = ∅ <;>
      simp [h1, h2]

/-- Baselines with overlapping non-empty sides for the C1 witness. -/
def witC1Baselines : List Baseline :=
  [⟨"vpc-a", [⟨[], [⟨"tcp", some 440, some 443⟩]⟩], []⟩,
   ⟨"vpc-b", [⟨[⟨"tcp", some 443, some 443⟩], []⟩], []⟩]

/-- Witness for C1 at concrete baselines with both sides non-empty. -/
theorem calculate_allowed_ports_cases_witness :
    witC1Baselines ≠ [] ∧
    calculateAllowedPorts "vpc-a" "vpc-b" witC1Baselines =
      getAllowedPortsForVpc "vpc-a" witC1Baselines .egress ∩
        getAllowedPortsForVpc "vpc-b" witC1Baselines .ingress :=
  ⟨by decide,
   (calculate_allowed_ports_cases "vpc-a" "vpc-b" witC1Baselines
      (by decide)).1 (by decide) (by decide)⟩


/-! ## C2: idempotent analysis-path management (reachability.py) -/

/-- Key of the in-process `_path_cache`: (source, dest, protocol, port). -/
abbrev PathKey := String × String × String × Option Int

/-- An external Network Insights Path resource as observed through
`describe_network_insights_paths` (`Source`, `Destination`, `Protocol`,
`DestinationPort`, `NetworkInsightsPathId`). -/
structure NIPath where
  source : String
  destination : String
  protocol : String
  destinationPort : Option Int
  path_id : Nat
deriving DecidableEq, Repr

/-- State touched by `_find_existing_path` / `_get_or_create_path`: the
`_path_cache` dict, the external resources in pagination order, and a
counter supplying the ids of newly created resources. -/
structure PathState where
  cache : List (PathKey × Nat)
  external : List NIPath
  nextId : Nat
deriving DecidableEq, Repr

/-- Python truthiness of the `port` argument (`None` and 0 are falsy). -/
def portTruthy : Option Int → Bool
  | none => false
  | some p => p ≠ 0

/-- Match predicate of the pagination search in `_find_existing_path`:
source, destination and protocol equal, and for tcp/udp the stored
`DestinationPort` must equal the requested port (for other protocols the
port is ignored). -/
def pathMatches (src dst proto : String) (port : Option Int) (p : NIPath) : Bool :=
  decide (p.source = src ∧ p.destination = dst ∧ p.protocol = proto ∧
    (proto ∈ (["tcp", "udp"] : List String) → p.destinationPort = port))

/-- Dict deletion `del self._path_cache[cache_key]`. -/
def cacheDelete (cache : List (PathKey × Nat)) (key : PathKey) :
    List (PathKey × Nat) :=
  cache.filter (fun e => !decide (e.1 = key))

/-- Dict assignment `self._path_cache[cache_key] = path_id`. -/
def cacheInsert (cache : List (PathKey × Nat)) (key : PathKey) (pid : Nat) :
    List (PathKey × Nat) :=
  (key, pid) :: cacheDelete cache key

/-- The pagination loop of `_find_existing_path`: scan the existing
resources for a match and cache the first hit. -/
def searchExternalPaths (st : PathState) (src dst proto : String)
    (port : Option Int) : Option Nat × PathState :=
  match st.external.find? (pathMatches src dst proto port) with
  | some p =>
      (some p.path_id,
       { st with cache := cacheInsert st.cache (src, dst, proto, port) p.path_id })
  | none => (none, st)

/-- `ReachabilityTester._find_existing_path`: consult the cache first,
verifying that a cached resource still exists (dropping the stale entry
otherwise), then fall back to the pagination search. -/
def findExistingPath (st : PathState) (src dst proto : String)
    (port : Option Int) : Option Nat × PathState :=
  let key : PathKey := (src, dst, proto, port)
  match (st.cache.find? (fun e => decide (e.1 = key))).map (fun e => e.2) with
  | some pid =>
      if st.external.any (fun p => p.path_id == pid) then (some pid, st)
      else searchExternalPaths { st with cache := cacheDelete st.cache key }
        src dst proto port
  | none => searchExternalPaths st src dst proto port

/-- `ReachabilityTester._get_or_create_path`: return an existing match if
any, otherwise create a new resource (recording `DestinationPort` only for
a truthy port with protocol tcp/udp), cache it, and return its id.  The
third component records whether a creation happened. -/
def getOrCreatePath (st : PathState) (src dst proto : String)
    (port : Option Int) : Nat × PathState × Bool :=
  match findExistingPath st src dst proto port with
  | (some pid, st1) => (pid, st1, false)
  | (none, st1) =>
      let pid := st1.nextId
      let newPath : NIPath :=
        { source := src, destination := dst, protocol := proto,
          destinationPort :=
            if portTruthy port ∧ proto ∈ (["tcp", "udp"] : List String) then port
            else none,
          path_id := pid }
      (pid,
       { cache := cacheInsert st1.cache (src, dst, proto, port) pid,
         external := st1.external ++ [newPath],
         nextId := st1.nextId + 1 },
       true)

/-- If the pagination search succeeds, the cache now maps the key to the
returned id, the id denotes an existing external resource, and the external
resources are unchanged. -/
theorem searchExternalPaths_some_post (st : PathState) (src dst proto : String)
    (port : Option Int) (pid : Nat) (st1 : PathState)
    (h : searchExternalPaths st src dst proto port = (some pid, st1)) :
    st1.cache.find? (fun e => decide (e.1 = ((src, dst, proto, port) : PathKey)))
      = some ((src, dst, proto, port), pid)
    ∧ st1.external.any (fun p => p.path_id == pid) = true := by
  unfold searchExternalPaths at h
  cases hf : st.external.find? (pathMatches src dst proto port) with
  | some p =>
    rw [hf] at h
    injection h with h1 h2
    injection h1 with h1
    subst h1
    subst h2
    constructor
    · simp [cacheInsert, List.find?_cons_of_pos]
    · exact List.any_eq_true.mpr ⟨p, List.mem_of_find?_eq_some hf, by simp⟩
  | none =>
    rw [hf] at h
    injection h with h1 h2
    exact absurd h1 (by simp)

/-- If `_find_existing_path` succeeds, the cache maps the key to the
returned id and the id denotes an existing external resource; the external
resources are untouched. -/
theorem findExistingPath_some_post (st : PathState) (src dst proto : String)
    (port : Option Int) (pid : Nat) (st1 : PathState)
    (h : findExistingPath st src dst proto port = (some pid, st1)) :
    st1.cache.find? (fun e => decide (e.1 = ((src, dst, proto, port) : PathKey)))
      = some ((src, dst, proto, port), pid)
    ∧ st1.external.any (fun p => p.path_id == pid) = true := by
  simp only [findExistingPath] at h
  cases hc : (st.cache.find? (fun e =>
      decide (e.1 = ((src, dst, proto, port) : PathKey)))) with
  | some e =>
    rw [hc] at h
    simp only [Option.map_some'] at h
    by_cases hv : st.external.any (fun p => p.path_id == e.2) = true
    · rw [if_pos hv] at h
      injection h with h1 h2
      injection h1 with h1
      subst h2
      have hp := List.find?_some hc
      have he1 : e.1 = ((src, dst, proto, port) : PathKey) := of_decide_eq_true hp
      constructor
      · rw [hc]
        congr 1
        exact Prod.ext he1 h1
      · rw [← h1]; exact hv
    · rw [if_neg hv] at h
      exact searchExternalPaths_some_post _ _ _ _ _ _ _ h
  | none =>
    rw [hc] at h
    simp only [Option.map_none'] at h
    exact searchExternalPaths_some_post _ _ _ _ _ _ _ h

/-- After any `_get_or_create_path` call, the cache maps the key to the
returned id and that id denotes an existing external resource. -/
theorem getOrCreatePath_post (st : PathState) (src dst proto : String)
    (port : Option Int) :
    ((getOrCreatePath st src dst proto port).2.1.cache.find?
        (fun e => decide (e.1 = ((src, dst, proto, port) : PathKey))))
      = some ((src, dst, proto, port), (getOrCreatePath st src dst proto port).1)
    ∧ ((getOrCreatePath st src dst proto port).2.1.external.any
        (fun p => p.path_id == (getOrCreatePath st src dst proto port).1)) = true := by
  unfold getOrCreatePath
  cases hf : findExistingPath st src dst proto port with
  | mk o st1 =>
    cases o with
    | some pid =>
      simpa using findExistingPath_some_post st src dst proto port pid st1 hf
    | none =>
      constructor
      · simp [cacheInsert, List.find?_cons_of_pos]
      · simp

/-- With a consistent cache entry, `_get_or_create_path` returns the cached
id immediately: no state change, no creation. -/
theorem getOrCreatePath_cache_hit (st : PathState) (src dst proto : String)
    (port : Option Int) (pid : Nat)
    (h1 : st.cache.find? (fun e => decide (e.1 = ((src, dst, proto, port) : PathKey)))
      = some ((src, dst, proto, port), pid))
    (h2 : st.external.any (fun p => p.path_id == pid) = true) :
    getOrCreatePath st src dst proto port = (pid, st, false) := by
  unfold getOrCreatePath
  simp only [findExistingPath, h1, Option.map_some', h2, if_true]

/-- C2: calling `_get_or_create_path` twice with identical
(source, destination, protocol, port) returns the same path id both times,
the second call never creates a resource (so at most one creation happens
across the two calls), and a creation only ever happens after
`_find_existing_path` (cache, then pagination search) found no match. -/
theorem get_or_create_path_idempotent (st : PathState) (src dst proto : String)
    (port : Option Int) :
    (getOrCreatePath (getOrCreatePath st src dst proto port).2.1 src dst proto port).1
      = (getOrCreatePath st src dst proto port).1
    ∧ (getOrCreatePath (getOrCreatePath st src dst proto port).2.1 src dst proto port).2.2
      = false
    ∧ ((getOrCreatePath st src dst proto port).2.2 = true →
        (findExistingPath st src dst proto port).1 = none) := by
  obtain ⟨h1, h2⟩ := getOrCreatePath_post st src dst proto port
  have hhit := getOrCreatePath_cache_hit _ src dst proto port _ h1 h2
  refine ⟨by rw [hhit], by rw [hhit], ?_⟩
  intro hcreated
  unfold getOrCreatePath at hcreated
  cases hf : findExistingPath st src dst proto port with
  | mk o st1 =>
    cases o with
    | some pid => rw [hf] at hcreated; simp at hcreated
    | none => rfl

/-- Witness for C2: from a fresh state the first call creates (so the
creation hypothesis of the third conjunct is satisfiable). -/
theorem get_or_create_path_idempotent_witness :
    (getOrCreatePath ⟨[], [], 0⟩ "src-arn" "dst-arn" "tcp" (some 443)).2.2 = true
    ∧ (findExistingPath ⟨[], [], 0⟩ "src-arn" "dst-arn" "tcp" (some 443)).1 = none :=
  ⟨by rfl,
   (get_or_create_path_idempotent ⟨[], [], 0⟩ "src-arn" "dst-arn" "tcp"
      (some 443)).2.2 (by rfl)⟩

/-! ## C4: retry/backoff policy (reachability.py `_retry_on_error`) -/

/-- Error classes distinguished by `_retry_on_error`: throttling
(`Throttling`, `RequestLimitExceeded`, `TooManyRequestsException`, or a
message containing `throttl`/`rate`), expired credentials (`RequestExpired`,
`ExpiredTokenException`, `ExpiredToken`, or a message containing
`expired`/`expiredtoken`), `ServiceUnavailable`, and everything else. -/
inductive ErrClass where
  | throttling
  | expired
  | serviceUnavailable
  | otherErr
deriving DecidableEq, Repr

/-- Outcome of one invocation of the wrapped function. -/
inductive CallOutcome where
  | ok (v : Nat)
  | err (c : ErrClass)
deriving DecidableEq, Repr

/-- Observable trace of one `_retry_on_error` run: the final result, the
back-off sleeps in order (seconds), and the number of client refreshes. -/
structure RetryTrace where
  result : Except ErrClass Nat
  sleeps : List Nat
  refreshes : Nat
deriving Repr

/-- Prepend one sleep to a trace. -/
def RetryTrace.withSleep (w : Nat) (t : RetryTrace) : RetryTrace :=
  { t with sleeps := w :: t.sleeps }

/-- Record one `_refresh_ec2_client` call in a trace. -/
def RetryTrace.withRefresh (t : RetryTrace) : RetryTrace :=
  { t with refreshes := t.refreshes + 1 }

/-- The loop `for attempt in range(max_retries)` of `_retry_on_error`,
`f i` being the outcome of the (i+1)-th call of the wrapped function:
throttling sleeps `5 * 2 ^ attempt`; expired credentials sleep 2 and
refresh the client; `ServiceUnavailable` sleeps `10 * (attempt + 1)`; any
other error is re-raised at once; an exhausted loop re-raises the last
error. -/
def retryAux (f : Nat → CallOutcome) :
    Nat → Nat → Option ErrClass → RetryTrace
  | 0, _, lastErr => ⟨.error (lastErr.getD .otherErr), [], 0⟩
  | remaining + 1, attempt, _ =>
    match f attempt with
    | .ok v => ⟨.ok v, [], 0⟩
    | .err .throttling =>
        .withSleep (5 * 2 ^ attempt)
          (retryAux f remaining (attempt + 1) (some .throttling))
    | .err .expired =>
        .withRefresh (.withSleep 2
          (retryAux f remaining (attempt + 1) (some .expired)))
    | .err .serviceUnavailable =>
        .withSleep (10 * (attempt + 1))
          (retryAux f remaining (attempt + 1) (some .serviceUnavailable))
    | .err .otherErr => ⟨.error .otherErr, [], 0⟩

/-- `_retry_on_error` with its default `max_retries = 5`. -/
def retryOnError (f : Nat → CallOutcome) : RetryTrace := retryAux f 5 0 none

/-- Modelled from the amended claim's words: the sleeps taken before the
retry of each error of a run whose first call is attempt index `i`
(throttling `5 * 2 ^ attempt`, expired 2, service-unavailable
`10 * (attempt + 1)`). -/
def sleepSchedule : Nat → List ErrClass → List Nat
  | _, [] => []
  | i, .throttling :: es => 5 * 2 ^ i :: sleepSchedule (i + 1) es
  | i, .expired :: es => 2 :: sleepSchedule (i + 1) es
  | i, .serviceUnavailable :: es => 10 * (i + 1) :: sleepSchedule (i + 1) es
  | i, .otherErr :: es => 0 :: sleepSchedule (i + 1) es

/-- Number of client refreshes a run with these retried errors performs. -/
def refreshCount (es : List ErrClass) : Nat :=
  (es.filter (fun e => e = .expired)).length

/-- One unfolding step of the retry loop. -/
theorem retryAux_succ (f : Nat → CallOutcome) (r attempt : Nat)
    (le : Option ErrClass) :
    retryAux f (r + 1) attempt le =
      match f attempt with
      | .ok v => ⟨.ok v, [], 0⟩
      | .err .throttling =>
          .withSleep (5 * 2 ^ attempt) (retryAux f r (attempt + 1) (some .throttling))
      | .err .expired =>
          .withRefresh (.withSleep 2 (retryAux f r (attempt + 1) (some .expired)))
      | .err .serviceUnavailable =>
          .withSleep (10 * (attempt + 1))
            (retryAux f r (attempt + 1) (some .serviceUnavailable))
      | .err .otherErr => ⟨.error .otherErr, [], 0⟩ := rfl

/-- A run that retries the errors `es` and then succeeds. -/
theorem retryAux_ok (es : List ErrClass) :
    ∀ (f : Nat → CallOutcome) (attempt remaining : Nat) (v : Nat)
      (le : Option ErrClass),
      es.length < remaining →
      (∀ i, (h : i < es.length) → f (attempt + i) = .err (es.get ⟨i, h⟩)) →
      (∀ e ∈ es, e ≠ .otherErr) →
      f (attempt + es.length) = .ok v →
      retryAux f remaining attempt le =
        ⟨.ok v, sleepSchedule attempt es, refreshCount es⟩ := by
  induction es with
  | nil =>
    intro f attempt remaining v le hlen hf hr hok
    match remaining, hlen with
    | r + 1, _ =>
      simp only [List.length_nil, Nat.add_zero] at hok
      simp [retryAux, hok, sleepSchedule, refreshCount]
  | cons e es ih =>
    intro f attempt remaining v le hlen hf hr hok
    match remaining, hlen with
    | r + 1, hlen =>
      have hf0 : f attempt = .err e := by
        have := hf 0 (by simp)
        simpa using this
      have hfs : ∀ i, (h : i < es.length) →
          f (attempt + 1 + i) = .err (es.get ⟨i, h⟩) := by
        intro i h
        have := hf (i + 1) (by simpa using Nat.succ_lt_succ h)
        simpa [Nat.add_comm, Nat.add_assoc, Nat.add_left_comm] using this
      have hoks : f (attempt + 1 + es.length) = .ok v := by
        have : attempt + 1 + es.length = attempt + (e :: es).length := by
          simp [Nat.add_comm, Nat.add_assoc, Nat.add_left_comm]
        rw [this]; exact hok
      have hlens : es.length < r := by simpa using hlen
      have hrs : ∀ x ∈ es, x ≠ .otherErr := fun x hx => hr x (List.mem_cons_of_mem _ hx)
      cases e with
      | throttling =>
        simp [retryAux, hf0, ih f (attempt + 1) r v _ hlens hfs hrs hoks,
          RetryTrace.withSleep, sleepSchedule, refreshCount]
      | expired =>
        simp [retryAux, hf0, ih f (attempt + 1) r v _ hlens hfs hrs hoks,
          RetryTrace.withSleep, RetryTrace.withRefresh, sleepSchedule, refreshCount]
      | serviceUnavailable =>
        simp [retryAux, hf0, ih f (attempt + 1) r v _ hlens hfs hrs hoks,
          RetryTrace.withSleep, sleepSchedule, refreshCount]
      | otherErr => exact absurd rfl (hr _ (by simp))

/-- A run that retries the errors `es` and then hits a non-retryable error:
it propagates at once. -/
theorem retryAux_other (es : List ErrClass) :
    ∀ (f : Nat → CallOutcome) (attempt remaining : Nat) (le : Option ErrClass),
      es.length < remaining →
      (∀ i, (h : i < es.length) → f (attempt + i) = .err (es.get ⟨i, h⟩)) →
      (∀ e ∈ es, e ≠ .otherErr) →
      f (attempt + es.length) = .err .otherErr →
      retryAux f remaining attempt le =
        ⟨.error .otherErr, sleepSchedule attempt es, refreshCount es⟩ := by
  induction es with
  | nil =>
    intro f attempt remaining le hlen hf hr hother
    match remaining, hlen with
    | r + 1, _ =>
      simp only [List.length_nil, Nat.add_zero] at hother
      simp [retryAux, hother, sleepSchedule, refreshCount]
  | cons e es ih =>
    intro f attempt remaining le hlen hf hr hother
    match remaining, hlen with
    | r + 1, hlen =>
      have hf0 : f attempt = .err e := by
        have := hf 0 (by simp)
        simpa using this
      have hfs : ∀ i, (h : i < es.length) →
          f (attempt + 1 + i) = .err (es.get ⟨i, h⟩) := by
        intro i h
        have := hf (i + 1) (by simpa using Nat.succ_lt_succ h)
        simpa [Nat.add_comm, Nat.add_assoc, Nat.add_left_comm] using this
      have hos : f (attempt + 1 + es.length) = .err .otherErr := by
        have : attempt + 1 + es.length = attempt + (e :: es).length := by
          simp [Nat.add_comm, Nat.add_assoc, Nat.add_left_comm]
        rw [this]; exact hother
      have hlens : es.length < r := by simpa using hlen
      have hrs : ∀ x ∈ es, x ≠ .otherErr := fun x hx => hr x (List.mem_cons_of_mem _ hx)
      cases e with
      | throttling =>
        simp [retryAux, hf0, ih f (attempt + 1) r _ hlens hfs hrs hos,
          RetryTrace.withSleep, sleepSchedule, refreshCount]
      | expired =>
        simp [retryAux, hf0, ih f (attempt + 1) r _ hlens hfs hrs hos,
          RetryTrace.withSleep, RetryTrace.withRefresh, sleepSchedule, refreshCount]
      | serviceUnavailable =>
        simp [retryAux, hf0, ih f (attempt + 1) r _ hlens hfs hrs hos,
          RetryTrace.withSleep, sleepSchedule, refreshCount]
      | otherErr => exact absurd rfl (hr _ (by simp))

/-- A run whose budget is exactly exhausted by retried errors re-raises the
last of them. -/
theorem retryAux_exhaust (es : List ErrClass) :
    ∀ (f : Nat → CallOutcome) (attempt : Nat) (le : Option ErrClass)
      (e : ErrClass),
      (∀ i, (h : i < es.length) → f (attempt + i) = .err (es.get ⟨i, h⟩)) →
      (∀ x ∈ es, x ≠ .otherErr) →
      es.getLast? = some e →
      retryAux f es.length attempt le =
        ⟨.error e, sleepSchedule attempt es, refreshCount es⟩ := by
  induction es with
  | nil => intro f attempt le e _ _ hlast; simp at hlast
  | cons e0 es ih =>
    intro f attempt le e hf hr hlast
    have hf0 : f attempt = .err e0 := by
      have := hf 0 (by simp)
      simpa using this
    have hfs : ∀ i, (h : i < es.length) →
        f (attempt + 1 + i) = .err (es.get ⟨i, h⟩) := by
      intro i h
      have := hf (i + 1) (by simpa using Nat.succ_lt_succ h)
      simpa [Nat.add_comm, Nat.add_assoc, Nat.add_left_comm] using this
    have hrs : ∀ x ∈ es, x ≠ .otherErr := fun x hx => hr x (List.mem_cons_of_mem _ hx)
    cases es with
    | nil =>
      have he : e0 = e := by simpa using hlast
      subst he
      cases e0 with
      | throttling =>
        simp [retryAux, hf0, RetryTrace.withSleep, sleepSchedule, refreshCount]
      | expired =>
        simp [retryAux, hf0, RetryTrace.withSleep, RetryTrace.withRefresh,
          sleepSchedule, refreshCount]
      | serviceUnavailable =>
        simp [retryAux, hf0, RetryTrace.withSleep, sleepSchedule, refreshCount]
      | otherErr => exact absurd rfl (hr _ (by simp))
    | cons e1 es2 =>
      have hlast2 : (e1 :: es2).getLast? = some e := by
        rw [List.getLast?_cons_cons] at hlast; exact hlast
      have hrec := ih f (attempt + 1) (some e0) e hfs hrs hlast2
      cases e0 with
      | throttling =>
        rw [show (ErrClass.throttling :: e1 :: es2).length
            = (e1 :: es2).length + 1 from rfl, retryAux_succ]
        simp only [hf0]
        rw [hrec]
        simp [RetryTrace.withSleep, sleepSchedule, refreshCount]
      | expired =>
        rw [show (ErrClass.expired :: e1 :: es2).length
            = (e1 :: es2).length + 1 from rfl, retryAux_succ]
        simp only [hf0]
        rw [hrec]
        simp [RetryTrace.withSleep, RetryTrace.withRefresh, sleepSchedule, refreshCount]
      | serviceUnavailable =>
        rw [show (ErrClass.serviceUnavailable :: e1 :: es2).length
            = (e1 :: es2).length + 1 from rfl, retryAux_succ]
        simp only [hf0]
        rw [hrec]
        simp [RetryTrace.withSleep, sleepSchedule, refreshCount]
      | otherErr => exact absurd rfl (hr _ (by simp))

/-- C4 counterexample sequence: five expired-credential errors, then
success. -/
def cexC4Expired : Nat → CallOutcome :=
  fun i => if i < 5 then .err .expired else .ok 42

/-- C4 counterexample sequence: an expired-credential error, then a
throttling error, then success. -/
def cexC4Mixed : Nat → CallOutcome :=
  fun i => if i = 0 then .err .expired else if i = 1 then .err .throttling
    else .ok 7

/-- C4 counterexample: expired-credential retries do count against the
5-attempt budget (five expired errors exhaust it even though the next call
would succeed), and they advance the throttling backoff exponent (after one
expired retry the first throttling wait is 10s, not 5s). -/
theorem retry_on_error_expired_counts_against_budget :
    retryOnError cexC4Expired = ⟨.error .expired, [2, 2, 2, 2, 2], 5⟩
    ∧ retryOnError cexC4Mixed = ⟨.ok 7, [2, 10], 1⟩
    ∧ 10 ≠ 5 * 2 ^ 0 := by
  refine ⟨rfl, rfl, by decide⟩

/-- C4 (amended): `_retry_on_error` retries throttling errors with
exponential backoff `5 * 2 ^ attempt`, expired-credential errors with a 2s
sleep plus a client refresh, and service-unavailable errors with linear
backoff `10 * (attempt + 1)`; any other error propagates immediately; all
three retried classes share one 5-attempt budget and one attempt counter
(so an expired-credential retry consumes budget and advances the throttling
exponent), and an exhausted budget re-raises the last error. -/
theorem retry_on_error_policy :
    (∀ (f : Nat → CallOutcome) (es : List ErrClass) (v : Nat),
      es.length < 5 →
      (∀ i, (h : i < es.length) → f i = .err (es.get ⟨i, h⟩)) →
      (∀ e ∈ es, e ≠ .otherErr) →
      f es.length = .ok v →
      retryOnError f = ⟨.ok v, sleepSchedule 0 es, refreshCount es⟩)
    ∧ (∀ (f : Nat → CallOutcome) (es : List ErrClass),
        es.length < 5 →
        (∀ i, (h : i < es.length) → f i = .err (es.get ⟨i, h⟩)) →
        (∀ e ∈ es, e ≠ .otherErr) →
        f es.length = .err .otherErr →
        retryOnError f = ⟨.error .otherErr, sleepSchedule 0 es, refreshCount es⟩)
    ∧ (∀ (f : Nat → CallOutcome) (es : List ErrClass) (e : ErrClass),
        es.length = 5 →
        (∀ i, (h : i < es.length) → f i = .err (es.get ⟨i, h⟩)) →
        (∀ x ∈ es, x ≠ .otherErr) →
        es.getLast? = some e →
        retryOnError f = ⟨.error e, sleepSchedule 0 es, refreshCount es⟩) := by
  refine ⟨?_, ?_, ?_⟩
  · intro f es v hlen hf hr hok
    exact retryAux_ok es f 0 5 v none hlen (by simpa using hf) hr (by simpa using hok)
  · intro f es hlen hf hr hother
    exact retryAux_other es f 0 5 none hlen (by simpa using hf) hr (by simpa using hother)
  · intro f es e hlen hf hr hlast
    have := retryAux_exhaust es f 0 none e (by simpa using hf) hr hlast
    rw [retryOnError, ← hlen]
    exact this

/-- Call-outcome sequence for the C4 witness: one throttling error, then
success. -/
def witC4f : Nat → CallOutcome :=
  fun i => if i = 0 then .err .throttling else .ok 7

/-- Witness for C4 at a concrete outcome sequence. -/
theorem retry_on_error_policy_witness :
    ([ErrClass.throttling].length < 5)
    ∧ retryOnError witC4f =
        ⟨.ok 7, sleepSchedule 0 [.throttling], refreshCount [.throttling]⟩ :=
  ⟨by decide,
   retry_on_error_policy.1 witC4f [.throttling] 7 (by decide)
     (by intro i h
         have hi : i = 0 := Nat.lt_one_iff.mp (by simpa using h)
         subst hi
         rfl)
     (by decide) rfl⟩

/-! ## C7: VPN reachability test (reachability.py `test_vpn_reachability`) -/

/-- One `VgwTelemetry` entry of a VPN connection (`Status`). -/
structure VgwTelemetry where
  status : String
deriving DecidableEq, Repr

/-- The fields of a VPN connection used by `test_vpn_reachability`
(`State`, `VgwTelemetry`). -/
structure VpnConnectionRecord where
  state : String
  telemetry : List VgwTelemetry
deriving DecidableEq, Repr

/-- Number of tunnels reporting UP (`options.get('Status') == 'UP'`). -/
def tunnelsUp (c : VpnConnectionRecord) : Nat :=
  (c.telemetry.filter (fun t => t.status = "UP")).length

/-- `ReachabilityTester.test_vpn_reachability` as a function of the
`describe_vpn_connections` lookup result: SKIP when the id does not
resolve, PASS when state is "available" and at least one tunnel is UP,
WARN when available with zero tunnels UP, FAIL otherwise.  Returns the
result and message. -/
def testVpnReachability (vpn_id : String) (lookup : Option VpnConnectionRecord) :
    TestResult × String :=
  match lookup with
  | none => (TestResult.skip, s!"VPN {vpn_id} not found")
  | some c =>
      let up := tunnelsUp c
      let total := c.telemetry.length
      if c.state = "available" ∧ up > 0 then
        (TestResult.pass, s!"VPN available, {up}/{total} tunnels UP")
      else if c.state = "available" then
        (TestResult.warn, "VPN available but all tunnels DOWN")
      else
        (TestResult.fail, s!"VPN state: {c.state}")

/-- C7: the VPN test returns PASS with a "k/n tunnels UP" message whenever
the state is "available" and at least one tunnel is UP (in particular 1 of
2 tunnels UP yields PASS with "1/2 tunnels UP", not WARN), WARN when
available with zero tunnels UP, FAIL when the state is anything else, and
SKIP when the VPN id does not resolve. -/
theorem test_vpn_reachability_policy :
    (∀ (id : String) (c : VpnConnectionRecord),
      c.state = "available" → tunnelsUp c > 0 →
      testVpnReachability id (some c) =
        (TestResult.pass, s!"VPN available, {tunnelsUp c}/{c.telemetry.length} tunnels UP"))
    ∧ (∀ (id : String) (t1 t2 : VgwTelemetry),
        t1.status = "UP" → t2.status ≠ "UP" →
        testVpnReachability id (some ⟨"available", [t1, t2]⟩) =
          (TestResult.pass, "VPN available, 1/2 tunnels UP"))
    ∧ (∀ (id : String) (c : VpnConnectionRecord),
        c.state = "available" → tunnelsUp c = 0 →
        testVpnReachability id (some c) =
          (TestResult.warn, "VPN available but all tunnels DOWN"))
    ∧ (∀ (id : String) (c : VpnConnectionRecord),
        c.state ≠ "available" →
        testVpnReachability id (some c) = (TestResult.fail, s!"VPN state: {c.state}"))
    ∧ (∀ id : String, testVpnReachability id none =
        (TestResult.skip, s!"VPN {id} not found")) := by
  refine ⟨?_, ?_, ?_, ?_, ?_⟩
  · intro id c h1 h2
    simp [testVpnReachability, h1, h2]
  · intro id t1 t2 h1 h2
    have hup : tunnelsUp ⟨"available", [t1, t2]⟩ = 1 := by
      simp [tunnelsUp, List.filter, h1, h2]
    simp only [testVpnReachability, hup]
    norm_num
    rfl
  · intro id c h1 h2
    simp [testVpnReachability, h1, h2]
  · intro id c h1
    simp [testVpnReachability, h1]
  · intro id
    simp [testVpnReachability]

/-- Witness for C7: a VPN with 2 tunnels, exactly 1 UP, yields PASS with
the "1/2 tunnels UP" message. -/
theorem test_vpn_reachability_policy_witness :
    ((⟨"UP"⟩ : VgwTelemetry).status = "UP")
    ∧ testVpnReachability "vpn-1" (some ⟨"available", [⟨"UP"⟩, ⟨"DOWN"⟩]⟩) =
        (TestResult.pass, "VPN available, 1/2 tunnels UP") :=
  ⟨rfl, test_vpn_reachability_policy.2.1 "vpn-1" ⟨"UP"⟩ ⟨"DOWN"⟩ rfl (by decide)⟩

/-! ## C8: PrivateLink reachability test
(reachability.py `test_privatelink_reachability`) -/

/-- Fields of a VPC endpoint used by `test_privatelink_reachability`
(`State`, `NetworkInterfaceIds`). -/
structure VpcEndpointRecord where
  state : String
  network_interface_ids : List String
deriving DecidableEq, Repr

/-- External lookups performed by `test_privatelink_reachability`: the
`describe_vpc_endpoints` result, the `_find_suitable_eni` result for the
source VPC, the owner returned by `describe_network_interfaces` for the
first endpoint ENI, and the analysis verdict (`NetworkPathFound`). -/
structure PrivatelinkEnv where
  endpoint : Option VpcEndpointRecord
  source_eni : Option String
  dest_eni_owner : Option String
  reachable : Bool
deriving DecidableEq, Repr

/-- Outcome of `test_privatelink_reachability`: result, message, and
whether `_create_reachability_analysis` (and hence analysis-path creation
and analysis start) was reached. -/
structure PrivatelinkOutcome where
  result : TestResult
  message : String
  analysis_invoked : Bool
deriving DecidableEq, Repr

/-- `ReachabilityTester.test_privatelink_reachability`: SKIP when the
endpoint id does not resolve; FAIL fast when the endpoint state is not
"available"; FAIL when it has no backing network interfaces; WARN when no
source ENI is found in the VPC; FAIL when the endpoint ENI cannot be
described; otherwise run the path analysis and PASS/FAIL on the verdict. -/
def testPrivatelinkReachability (endpoint_id : String)
    (env : PrivatelinkEnv) : PrivatelinkOutcome :=
  match env.endpoint with
  | none => ⟨.skip, s!"VPC Endpoint {endpoint_id} not found", false⟩
  | some ep =>
      if ep.state ≠ "available" then
        ⟨.fail, s!"VPC Endpoint state: {ep.state}", false⟩
      else if ep.network_interface_ids = [] then
        ⟨.fail, "VPC Endpoint has no ENIs", false⟩
      else
        match env.source_eni with
        | none =>
            ⟨.warn,
             "No source ENI found in VPC for path analysis. Endpoint is available but cannot verify reachability.",
             false⟩
        | some _ =>
            match env.dest_eni_owner with
            | none =>
                ⟨.fail,
                 "Could not find endpoint ENI " ++ ep.network_interface_ids.headD "",
                 false⟩
            | some _ =>
                let verdict := if env.reachable then "found" else "not found"
                ⟨if env.reachable then .pass else .fail,
                 s!"Path {verdict} to endpoint {endpoint_id}",
                 true⟩

/-- C8: when the endpoint state is not "available" (for example "pending")
the PrivateLink test FAILs and never reaches analysis-path creation or
analysis start; it SKIPs when the endpoint id does not resolve, FAILs when
the endpoint has no backing network interfaces, and WARNs (not FAILs) when
the endpoint is available but no source ENI is found in the VPC. -/
theorem test_privatelink_reachability_policy :
    (∀ (id : String) (env : PrivatelinkEnv) (ep : VpcEndpointRecord),
      env.endpoint = some ep → ep.state ≠ "available" →
      (testPrivatelinkReachability id env).result = .fail
      ∧ (testPrivatelinkReachability id env).analysis_invoked = false)
    ∧ (∀ (id : String) (env : PrivatelinkEnv),
        env.endpoint = none →
        (testPrivatelinkReachability id env).result = .skip
        ∧ (testPrivatelinkReachability id env).analysis_invoked = false)
    ∧ (∀ (id : String) (env : PrivatelinkEnv) (ep : VpcEndpointRecord),
        env.endpoint = some ep → ep.state = "available" →
        ep.network_interface_ids = [] →
        (testPrivatelinkReachability id env).result = .fail
        ∧ (testPrivatelinkReachability id env).analysis_invoked = false)
    ∧ (∀ (id : String) (env : PrivatelinkEnv) (ep : VpcEndpointRecord),
        env.endpoint = some ep → ep.state = "available" →
        ep.network_interface_ids ≠ [] → env.source_eni = none →
        (testPrivatelinkReachability id env).result = .warn
        ∧ (testPrivatelinkReachability id env).analysis_invoked = false) := by
  refine ⟨?_, ?_, ?_, ?_⟩
  · intro id env ep h1 h2
    simp [testPrivatelinkReachability, h1, h2]
  · intro id env h1
    simp [testPrivatelinkReachability, h1]
  · intro id env ep h1 h2 h3
    simp [testPrivatelinkReachability, h1, h2, h3]
  · intro id env ep h1 h2 h3 h4
    simp [testPrivatelinkReachability, h1, h2, h3, h4]

/-- Witness for C8: an endpoint in state "pending" yields FAIL without
invoking analysis creation. -/
theorem test_privatelink_reachability_policy_witness :
    ((⟨some ⟨"pending", ["eni-1"]⟩, none, none, false⟩ : PrivatelinkEnv).endpoint
      = some ⟨"pending", ["eni-1"]⟩)
    ∧ (testPrivatelinkReachability "vpce-1"
        ⟨some ⟨"pending", ["eni-1"]⟩, none, none, false⟩).result = .fail
    ∧ (testPrivatelinkReachability "vpce-1"
        ⟨some ⟨"pending", ["eni-1"]⟩, none, none, false⟩).analysis_invoked = false :=
  ⟨rfl,
   (test_privatelink_reachability_policy.1 "vpce-1"
      ⟨some ⟨"pending", ["eni-1"]⟩, none, none, false⟩ ⟨"pending", ["eni-1"]⟩
      rfl (by decide)).1,
   (test_privatelink_reachability_policy.1 "vpce-1"
      ⟨some ⟨"pending", ["eni-1"]⟩, none, none, false⟩ ⟨"pending", ["eni-1"]⟩
      rfl (by decide)).2⟩

/-! ## C10: string-to-enum mapping and dispatch (orchestrator.py
`run_tests` / `run_from_test_plan`, reachability.py `test_connectivity`) -/

/-- The `conn_type_map.get(conn_type_str, ConnectionType.TRANSIT_GATEWAY)`
mapping used by both `run_tests` and `run_from_test_plan`: unknown strings
default to the transit-gateway enum member. -/
def connTypeMapGet (s : String) : ConnectionType :=
  if s = "tgw" then .transit_gateway
  else if s = "pcx" then .vpc_peering
  else if s = "vpn" then .vpn
  else if s = "vpce" then .privatelink
  else .transit_gateway

/-- Which branch of `test_connectivity` a dispatch takes. -/
inductive DispatchKind where
  | tgwTest
  | peeringTest
  | vpnTest
  | privatelinkTest
  | skipUnknown
deriving DecidableEq, Repr

/-- The if/elif dispatch of `ReachabilityTester.test_connectivity`; the
final else branch (SKIP with an unknown-type message) is taken for any
enum member not matched before it, which is only `DIRECT_CONNECT`. -/
def testConnectivityDispatch : ConnectionType → DispatchKind
  | .transit_gateway => .tgwTest
  | .vpc_peering => .peeringTest
  | .vpn => .vpnTest
  | .privatelink => .privatelinkTest
  | .direct_connect => .skipUnknown

/-- C10: a test-plan entry whose connection-type string is none of
"tgw"/"pcx"/"vpn"/"vpce" is dispatched as a transit-gateway test (never
skipped), the dispatch of a mapped string never reaches the unknown-type
SKIP branch, and that branch is reachable only from the `DIRECT_CONNECT`
enum member itself. -/
theorem unknown_conn_type_dispatch :
    (∀ s : String, s ∉ (["tgw", "pcx", "vpn", "vpce"] : List String) →
      connTypeMapGet s = .transit_gateway
      ∧ testConnectivityDispatch (connTypeMapGet s) = .tgwTest)
    ∧ (∀ s : String, testConnectivityDispatch (connTypeMapGet s) ≠ .skipUnknown)
    ∧ (∀ ct : ConnectionType,
        testConnectivityDispatch ct = .skipUnknown ↔ ct = .direct_connect) := by
  refine ⟨?_, ?_, ?_⟩
  · intro s hs
    simp only [List.mem_cons, List.mem_singleton, not_or] at hs
    obtain ⟨h1, h2, h3, h4⟩ := hs
    constructor
    · simp [connTypeMapGet, h1, h2, h3, h4]
    · simp [connTypeMapGet, h1, h2, h3, h4, testConnectivityDispatch]
  · intro s
    by_cases h1 : s = "tgw" <;> by_cases h2 : s = "pcx" <;>
      by_cases h3 : s = "vpn" <;> by_cases h4 : s = "vpce" <;>
        simp [connTypeMapGet, h1, h2, h3, h4, testConnectivityDispatch]
  · intro ct
    cases ct <;> simp [testConnectivityDispatch]

/-- Witness for C10 at the concrete unmapped string "dx". -/
theorem unknown_conn_type_dispatch_witness :
    ("dx" ∉ (["tgw", "pcx", "vpn", "vpce"] : List String))
    ∧ connTypeMapGet "dx" = .transit_gateway
    ∧ testConnectivityDispatch (connTypeMapGet "dx") = .tgwTest :=
  ⟨by decide,
   (unknown_conn_type_dispatch.1 "dx" (by decide)).1,
   (unknown_conn_type_dispatch.1 "dx" (by decide)).2⟩

/-! ## C5: golden-path aggregation threshold
(baseline.py `generate_golden_path`) -/

/-- Number of occurrences the `port_patterns` counter of
`generate_golden_path` records for the key `{proto}:{port}`: one per
`allowed_ports` rule whose protocol is tcp/udp and equals `proto` and whose
`range(from_port, to_port + 1)` contains `port` (several rules of one
account each count). -/
def portPatternCount (baselines : List Baseline) (proto : String)
    (port : Int) : Nat :=
  (baselines.map (fun b =>
    (b.allowed_ports.filter (fun r =>
      decide (r.protocol ∈ (["tcp", "udp"] : List String) ∧ r.protocol = proto ∧
        r.from_port ≤ port ∧ port ≤ r.to_port))).length)).sum

/-- The inclusion test of `generate_golden_path`:
`count >= threshold` with `threshold = len(baselines) * 0.5`.  Since
`len(baselines) * 0.5` is exact in floating point and the count is an
integer, the comparison is exactly `2 * count >= len(baselines)`. -/
def portPatternIncluded (baselines : List Baseline) (proto : String)
    (port : Int) : Bool :=
  2 * portPatternCount baselines proto port ≥ baselines.length

/-- Two scanned accounts; the pattern tcp:443 occurs in exactly one of
them, i.e. in exactly 50% of the accounts. -/
def cexC5Baselines : List Baseline :=
  [⟨"vpc-a", [], [⟨"tcp", 443, 443⟩]⟩,
   ⟨"vpc-b", [], []⟩]

/-- C5: at the failing input (a pattern occurring in exactly half of the
scanned accounts) `generate_golden_path` includes the pattern, although the
claim — and the code's own comments ("Patterns appearing in >50% of
accounts") — require strictly more than 50%: the code compares
`count >= len(baselines) * 0.5` instead of `>`. -/
theorem golden_path_threshold_includes_exact_half :
    portPatternCount cexC5Baselines "tcp" 443 = 1
    ∧ 2 * portPatternCount cexC5Baselines "tcp" 443 = cexC5Baselines.length
    ∧ portPatternIncluded cexC5Baselines "tcp" 443 = true := by
  decide

/-! ## C6: connectivity map — peering yields two directed edges
(connectivity.py `discover_vpc_peering_connections`,
`build_connectivity_map`) -/

/-- An account dict passed to `build_connectivity_map` (`account_id`,
`account_name`, `vpc_id` — possibly absent). -/
structure AccountInfo where
  account_id : String
  account_name : String
  vpc_id : Option String
deriving DecidableEq, Repr

/-- One peering-connection record as collected by
`discover_vpc_peering_connections`. -/
structure PCXInfo where
  peering_id : String
  status : String
  requester_vpc : String
  requester_account : String
  accepter_vpc : String
  accepter_account : String
  tags : List (String × String)
deriving DecidableEq, Repr

/-- The `processed_pcx` dedup loop of `discover_vpc_peering_connections`
over the flattened per-account responses. -/
def dedupPcx : List PCXInfo → List String → List PCXInfo
  | [], _ => []
  | p :: rest, seen =>
      if p.peering_id ∈ seen then dedupPcx rest seen
      else p :: dedupPcx rest (p.peering_id :: seen)

/-- `discover_vpc_peering_connections`: per-account
`describe_vpc_peering_connections` responses (the request filter restricts
the status to active/pending-acceptance), flattened in account order and
deduplicated across accounts by connection id. -/
def discoverVpcPeeringConnections (responses : List (List PCXInfo)) :
    List PCXInfo :=
  dedupPcx (responses.flatten.filter
    (fun p => decide (p.status ∈ (["active", "pending-acceptance"] : List String)))) []

/-- `VPCConnectivityPattern` from models.py (the fields populated by
`build_connectivity_map`; the wall-clock timestamps and flow-log
enrichment fields that stay at their initial values are omitted). -/
structure VPCConnectivityPattern where
  source_vpc_id : String
  source_account_id : String
  source_account_name : String
  dest_vpc_id : String
  dest_account_id : String
  dest_account_name : String
  connection_type : ConnectionType
  connection_id : String
  expected : Bool
  ports_allowed : Finset Int
  use_case : String
deriving DecidableEq

/-- `next((a for a in accounts if a['vpc_id'] == vpc), {})`. -/
def findAccountByVpc (accounts : List AccountInfo) (vpc : String) :
    Option AccountInfo :=
  accounts.find? (fun a => a.vpc_id = some vpc)

/-- `acc.get('account_id', 'unknown')` on a possibly-missing account. -/
def accIdOf : Option AccountInfo → String
  | some a => a.account_id
  | none => "unknown"

/-- `acc.get('account_name', 'unknown')` on a possibly-missing account. -/
def accNameOf : Option AccountInfo → String
  | some a => a.account_name
  | none => "unknown"

/-- `tags.get(k)` over the tag dict. -/
def tagLookup (tags : List (String × String)) (k : String) : Option String :=
  (tags.find? (fun t => t.1 = k)).map (fun t => t.2)

/-- `pcx['tags'].get('UseCase', pcx['tags'].get('Purpose', 'general'))`. -/
def useCaseOf (tags : List (String × String)) : String :=
  (tagLookup tags "UseCase").getD ((tagLookup tags "Purpose").getD "general")

/-- One directed peering edge of `build_connectivity_map` for the ordered
pair (src, dst) of a peering connection's VPCs. -/
def mkPeeringEdge (accounts : List AccountInfo) (baselines : List Baseline)
    (pcx : PCXInfo) (src dst : String) : VPCConnectivityPattern :=
  let requester_acc := findAccountByVpc accounts pcx.requester_vpc
  let accepter_acc := findAccountByVpc accounts pcx.accepter_vpc
  let source_acc := if src = pcx.requester_vpc then requester_acc else accepter_acc
  let dest_acc := if dst = pcx.accepter_vpc then accepter_acc else requester_acc
  { source_vpc_id := src
    source_account_id := accIdOf source_acc
    source_account_name := accNameOf source_acc
    dest_vpc_id := dst
    dest_account_id := accIdOf dest_acc
    dest_account_name := accNameOf dest_acc
    connection_type := .vpc_peering
    connection_id := pcx.peering_id
    expected := pcx.status = "active"
    ports_allowed := calculateAllowedPorts src dst baselines
    use_case := useCaseOf pcx.tags }

/-- The peering section of `build_connectivity_map`: each deduplicated
connection contributes its two directed edges, requester→accepter then
accepter→requester. -/
def peeringEdges (accounts : List AccountInfo) (baselines : List Baseline)
    (pcxs : List PCXInfo) : List VPCConnectivityPattern :=
  pcxs.flatMap (fun pcx =>
    [mkPeeringEdge accounts baselines pcx pcx.requester_vpc pcx.accepter_vpc,
     mkPeeringEdge accounts baselines pcx pcx.accepter_vpc pcx.requester_vpc])

/-- A TGW VPC attachment as recorded in a `TGWTopology`. -/
structure TGWAttachment where
  vpc_id : String
  vpc_owner_id : String
deriving DecidableEq, Repr

/-- The slice of a `TGWTopology` used by `build_connectivity_map`:
the TGW id, its attachments, and the VPC connectivity matrix. -/
structure TGWTopologyData where
  tgw_id : String
  attachments : List TGWAttachment
  vpc_connectivity_matrix : List (String × List String)
deriving DecidableEq, Repr

/-- The `vpc_to_account` dict: vpc id → (account id, account name);
lookup returns the most recently inserted binding first. -/
abbrev VpcAccountDict := List (String × (String × String))

/-- Lookup in the `vpc_to_account` dict. -/
def dictLookup (d : VpcAccountDict) (vpc : String) : Option (String × String) :=
  (d.find? (fun e => e.1 = vpc)).map (fun e => e.2)

/-- `vpc_to_account = {acc['vpc_id']: acc for acc in accounts if
acc.get('vpc_id')}`: a dict comprehension keeps the last duplicate, so the
reversed list is stored with first-match lookup. -/
def initialVpcDict (accounts : List AccountInfo) : VpcAccountDict :=
  ((accounts.filter (fun a => a.vpc_id.isSome)).reverse).map
    (fun a => (a.vpc_id.getD "", (a.account_id, a.account_name)))

/-- Enrichment of `vpc_to_account` from one TGW's attachments: a VPC not
yet in the dict is added with its owner id as both account id and name. -/
def tgwEnrich (d : VpcAccountDict) (atts : List TGWAttachment) : VpcAccountDict :=
  atts.foldl (fun acc att =>
    if (dictLookup acc att.vpc_id).isSome then acc
    else (att.vpc_id, (att.vpc_owner_id, att.vpc_owner_id)) :: acc) d

/-- One TGW edge of `build_connectivity_map`. -/
def mkTgwEdge (d : VpcAccountDict) (baselines : List Baseline)
    (tgw_id src dst : String) : VPCConnectivityPattern :=
  { source_vpc_id := src
    source_account_id := ((dictLookup d src).map Prod.fst).getD "unknown"
    source_account_name := ((dictLookup d src).map Prod.snd).getD "unknown"
    dest_vpc_id := dst
    dest_account_id := ((dictLookup d dst).map Prod.fst).getD "unknown"
    dest_account_name := ((dictLookup d dst).map Prod.snd).getD "unknown"
    connection_type := .transit_gateway
    connection_id := tgw_id
    expected := true
    ports_allowed := calculateAllowedPorts src dst baselines
    use_case := "general" }

/-- TGW edges of one topology: every associated source VPC to every
destination VPC of its route tables, self-edges skipped. -/
def tgwTopologyEdges (d : VpcAccountDict) (baselines : List Baseline)
    (t : TGWTopologyData) : List VPCConnectivityPattern :=
  t.vpc_connectivity_matrix.flatMap (fun sd =>
    (sd.2.filter (fun dst => dst ≠ sd.1)).map
      (fun dst => mkTgwEdge d baselines t.tgw_id sd.1 dst))

/-- The TGW section of `build_connectivity_map`: the `vpc_to_account`
enrichment accumulates across the discovered TGWs in order. -/
def tgwEdgesAux (baselines : List Baseline) :
    List TGWTopologyData → VpcAccountDict → List VPCConnectivityPattern
  | [], _ => []
  | t :: ts, d =>
      let d1 := tgwEnrich d t.attachments
      tgwTopologyEdges d1 baselines t ++ tgwEdgesAux baselines ts d1

/-- All TGW edges of `build_connectivity_map`. -/
def tgwEdges (accounts : List AccountInfo) (topologies : List TGWTopologyData)
    (baselines : List Baseline) : List VPCConnectivityPattern :=
  tgwEdgesAux baselines topologies (initialVpcDict accounts)

/-- One VPN connection record from `discover_vpn_connections`. -/
structure VPNConnInfo where
  vpn_id : String
  vpc_id : Option String
  state : String
deriving DecidableEq, Repr

/-- The VPN section of `build_connectivity_map`: one edge per VPN with a
truthy `vpc_id`, to the synthetic "on-premises" destination, with the
source VPC's egress ports. -/
def vpnEdges (accounts : List AccountInfo) (baselines : List Baseline)
    (vpns : List VPNConnInfo) : List VPCConnectivityPattern :=
  vpns.filterMap (fun v =>
    match v.vpc_id with
    | none => none
    | some vpc =>
        if vpc = "" then none
        else
          let vpc_acc := findAccountByVpc accounts vpc
          some
            { source_vpc_id := vpc
              source_account_id := accIdOf vpc_acc
              source_account_name := accNameOf vpc_acc
              dest_vpc_id := "on-premises"
              dest_account_id := "external"
              dest_account_name := "On-Premises"
              connection_type := .vpn
              connection_id := v.vpn_id
              expected := v.state = "available"
              ports_allowed := getAllowedPortsForVpc vpc baselines .egress
              use_case := "hybrid-connectivity" })

/-- One PrivateLink record from `discover_privatelink_connections`
(`is_endpoint` is `type == 'vpc-endpoint'`; endpoint-service records have
it false and produce no edge). -/
structure PLConnInfo where
  is_endpoint : Bool
  endpoint_id : String
  vpc_id : String
  service_name : String
  state : String
deriving DecidableEq, Repr

/-- The PrivateLink section of `build_connectivity_map`: one edge per VPC
endpoint to the synthetic "privatelink-service" destination. -/
def plEdges (accounts : List AccountInfo) (baselines : List Baseline)
    (pls : List PLConnInfo) : List VPCConnectivityPattern :=
  pls.filterMap (fun pl =>
    if pl.is_endpoint then
      let vpc_acc := findAccountByVpc accounts pl.vpc_id
      some
        { source_vpc_id := pl.vpc_id
          source_account_id := accIdOf vpc_acc
          source_account_name := accNameOf vpc_acc
          dest_vpc_id := "privatelink-service"
          dest_account_id := "service"
          dest_account_name := pl.service_name
          connection_type := .privatelink
          connection_id := pl.endpoint_id
          expected := pl.state = "available"
          ports_allowed := getAllowedPortsForVpc pl.vpc_id baselines .egress
          use_case := "service-access" }
    else none)

/-- `ConnectivityDiscovery.build_connectivity_map` (without the optional
flow-log enrichment pass, which only mutates the traffic fields): the four
connection-type sections concatenated in source order, each gated by its
discover flag. -/
def buildConnectivityMap (accounts : List AccountInfo)
    (topologies : List TGWTopologyData)
    (peeringResponses : List (List PCXInfo)) (vpns : List VPNConnInfo)
    (pls : List PLConnInfo) (baselines : List Baseline)
    (discover_tgw discover_peering discover_vpn discover_privatelink : Bool) :
    List VPCConnectivityPattern :=
  (if discover_tgw then tgwEdges accounts topologies baselines else [])
  ++ (if discover_peering then
        peeringEdges accounts baselines
          (discoverVpcPeeringConnections peeringResponses)
      else [])
  ++ (if discover_vpn then vpnEdges accounts baselines vpns else [])
  ++ (if discover_privatelink then plEdges accounts baselines pls else [])

/-- Connections kept by the dedup loop were not seen before. -/
theorem dedupPcx_id_not_seen :
    ∀ (l : List PCXInfo) (seen : List String) (p : PCXInfo),
      p ∈ dedupPcx l seen → p.peering_id ∉ seen := by
  intro l
  induction l with
  | nil => intro seen p h; simp [dedupPcx] at h
  | cons q rest ih =>
    intro seen p h
    by_cases hq : q.peering_id ∈ seen
    · rw [dedupPcx, if_pos hq] at h
      exact ih seen p h
    · rw [dedupPcx, if_neg hq] at h
      rcases List.mem_cons.mp h with heq | htail
      · subst heq; exact hq
      · intro hcon
        exact ih _ p htail (List.mem_cons_of_mem _ hcon)

/-- The connection ids surviving the dedup loop are pairwise distinct. -/
theorem dedupPcx_ids_nodup :
    ∀ (l : List PCXInfo) (seen : List String),
      ((dedupPcx l seen).map (fun p => p.peering_id)).Nodup := by
  intro l
  induction l with
  | nil => intro seen; simp [dedupPcx]
  | cons q rest ih =>
    intro seen
    by_cases hq : q.peering_id ∈ seen
    · rw [dedupPcx, if_pos hq]; exact ih seen
    · rw [dedupPcx, if_neg hq]
      rw [List.map_cons, List.nodup_cons]
      refine ⟨?_, ih _⟩
      intro hcon
      rcases List.mem_map.mp hcon with ⟨p, hp, hid⟩
      exact dedupPcx_id_not_seen rest _ p hp (hid ▸ List.mem_cons_self _ _)

/-- A TGW edge is tagged with the transit-gateway connection type. -/
theorem tgwEdgesAux_type (baselines : List Baseline) :
    ∀ (ts : List TGWTopologyData) (d : VpcAccountDict)
      (e : VPCConnectivityPattern), e ∈ tgwEdgesAux baselines ts d →
      e.connection_type = .transit_gateway := by
  intro ts
  induction ts with
  | nil => intro d e h; simp [tgwEdgesAux] at h
  | cons t rest ih =>
    intro d e h
    rw [tgwEdgesAux] at h
    rcases List.mem_append.mp h with h1 | h2
    · rcases List.mem_flatMap.mp h1 with ⟨sd, _, hmem⟩
      rcases List.mem_map.mp hmem with ⟨dst, _, heq⟩
      rw [← heq]; rfl
    · exact ih _ e h2

/-- A VPN edge is tagged with the vpn connection type. -/
theorem vpnEdges_type (accounts : List AccountInfo) (baselines : List Baseline)
    (vpns : List VPNConnInfo) :
    ∀ e ∈ vpnEdges accounts baselines vpns, e.connection_type = .vpn := by
  intro e he
  rcases List.mem_filterMap.mp he with ⟨v, _, heq⟩
  cases hvp : v.vpc_id with
  | none => rw [hvp] at heq; simp at heq
  | some vpc =>
    rw [hvp] at heq
    dsimp only at heq
    by_cases hv0 : vpc = ""
    · simp [hv0] at heq
    · rw [if_neg hv0] at heq
      injection heq with heq
      rw [← heq]

/-- A PrivateLink edge is tagged with the privatelink connection type. -/
theorem plEdges_type (accounts : List AccountInfo) (baselines : List Baseline)
    (pls : List PLConnInfo) :
    ∀ e ∈ plEdges accounts baselines pls, e.connection_type = .privatelink := by
  intro e he
  rcases List.mem_filterMap.mp he with ⟨pl, _, heq⟩
  by_cases hp : pl.is_endpoint = true
  · rw [if_pos hp] at heq
    injection heq with heq
    rw [← heq]
  · rw [if_neg hp] at heq
    exact Option.noConfusion heq

/-- The projections of a peering edge fixed by its construction. -/
theorem mkPeeringEdge_fields (accounts : List AccountInfo)
    (baselines : List Baseline) (pcx : PCXInfo) (src dst : String) :
    (mkPeeringEdge accounts baselines pcx src dst).connection_type = .vpc_peering
    ∧ (mkPeeringEdge accounts baselines pcx src dst).connection_id
        = pcx.peering_id :=
  ⟨rfl, rfl⟩

/-- The edge filter used in the C6 theorem. -/
def isPeeringEdgeOf (pid : String) (e : VPCConnectivityPattern) : Bool :=
  decide (e.connection_type = .vpc_peering ∧ e.connection_id = pid)

/-- Peering edges of connections with other ids do not pass the filter. -/
theorem peeringEdges_filter_eq_nil (accounts : List AccountInfo)
    (baselines : List Baseline) (ps : List PCXInfo) (pid : String)
    (h : ∀ q ∈ ps, q.peering_id ≠ pid) :
    (peeringEdges accounts baselines ps).filter (isPeeringEdgeOf pid) = [] := by
  rw [List.filter_eq_nil_iff]
  intro e he
  rcases List.mem_flatMap.mp he with ⟨q, hq, hmem⟩
  have hne := h q hq
  rcases List.mem_cons.mp hmem with heq | hmem2
  · subst heq
    simp [isPeeringEdgeOf, (mkPeeringEdge_fields accounts baselines q _ _).2, hne]
  · rcases List.mem_cons.mp hmem2 with heq | hmem3
    · subst heq
      simp [isPeeringEdgeOf, (mkPeeringEdge_fields accounts baselines q _ _).2, hne]
    · simp at hmem3

/-- Filtering the peering edges of a deduplicated connection list to one
connection id returns exactly that connection's two directed edges. -/
theorem peeringEdges_filter_of_nodup (accounts : List AccountInfo)
    (baselines : List Baseline) :
    ∀ (ps : List PCXInfo) (pcx : PCXInfo),
      ((ps.map (fun p => p.peering_id)).Nodup) → pcx ∈ ps →
      (peeringEdges accounts baselines ps).filter
          (isPeeringEdgeOf pcx.peering_id)
        = [mkPeeringEdge accounts baselines pcx pcx.requester_vpc pcx.accepter_vpc,
           mkPeeringEdge accounts baselines pcx pcx.accepter_vpc pcx.requester_vpc] := by
  intro ps
  induction ps with
  | nil => intro pcx _ h; simp at h
  | cons q rest ih =>
    intro pcx hnd hmem
    rw [List.map_cons, List.nodup_cons] at hnd
    obtain ⟨hnotin, hndrest⟩ := hnd
    have hsplit : peeringEdges accounts baselines (q :: rest)
        = [mkPeeringEdge accounts baselines q q.requester_vpc q.accepter_vpc,
           mkPeeringEdge accounts baselines q q.accepter_vpc q.requester_vpc]
          ++ peeringEdges accounts baselines rest := by
      rw [peeringEdges, List.flatMap_cons]; rfl
    rcases List.mem_cons.mp hmem with heq | hrest
    · subst heq
      rw [hsplit, List.filter_append]
      have hrestnil : (peeringEdges accounts baselines rest).filter
          (isPeeringEdgeOf pcx.peering_id) = [] := by
        refine peeringEdges_filter_eq_nil accounts baselines rest _ ?_
        intro r hr hcontra
        exact hnotin (hcontra ▸ List.mem_map_of_mem _ hr)
      rw [hrestnil]
      have h1 : isPeeringEdgeOf pcx.peering_id
          (mkPeeringEdge accounts baselines pcx pcx.requester_vpc pcx.accepter_vpc)
          = true := decide_eq_true ⟨rfl, rfl⟩
      have h2 : isPeeringEdgeOf pcx.peering_id
          (mkPeeringEdge accounts baselines pcx pcx.accepter_vpc pcx.requester_vpc)
          = true := decide_eq_true ⟨rfl, rfl⟩
      simp [List.filter_cons, h1, h2]
    · have hqne : q.peering_id ≠ pcx.peering_id := by
        intro hcontra
        exact hnotin (hcontra ▸ List.mem_map_of_mem _ hrest)
      rw [hsplit, List.filter_append]
      have hqnil : ([mkPeeringEdge accounts baselines q q.requester_vpc q.accepter_vpc,
          mkPeeringEdge accounts baselines q q.accepter_vpc q.requester_vpc]).filter
          (isPeeringEdgeOf pcx.peering_id) = [] := by
        simp [isPeeringEdgeOf,
          (mkPeeringEdge_fields accounts baselines q q.requester_vpc q.accepter_vpc).2,
          (mkPeeringEdge_fields accounts baselines q q.accepter_vpc q.requester_vpc).2,
          hqne]
      rw [hqnil, ih pcx hndrest hrest]
      exact List.nil_append _

/-- C6: for every peering connection surviving the dedup, the connectivity
map contains exactly two directed peering edges for it — requester→accepter
and accepter→requester — never one or three. -/
theorem peering_connection_two_directed_edges
    (accounts : List AccountInfo) (topologies : List TGWTopologyData)
    (peeringResponses : List (List PCXInfo)) (vpns : List VPNConnInfo)
    (pls : List PLConnInfo) (baselines : List Baseline)
    (discover_tgw discover_vpn discover_privatelink : Bool) (pcx : PCXInfo)
    (h : pcx ∈ discoverVpcPeeringConnections peeringResponses) :
    (buildConnectivityMap accounts topologies peeringResponses vpns pls
        baselines discover_tgw true discover_vpn discover_privatelink).filter
        (isPeeringEdgeOf pcx.peering_id)
      = [mkPeeringEdge accounts baselines pcx pcx.requester_vpc pcx.accepter_vpc,
         mkPeeringEdge accounts baselines pcx pcx.accepter_vpc pcx.requester_vpc] := by
  unfold buildConnectivityMap
  rw [List.filter_append, List.filter_append, List.filter_append]
  have htgw : (if discover_tgw then tgwEdges accounts topologies baselines
      else []).filter (isPeeringEdgeOf pcx.peering_id) = [] := by
    by_cases hd : discover_tgw = true
    · rw [if_pos hd, List.filter_eq_nil_iff]
      intro e he
      have ht := tgwEdgesAux_type baselines topologies _ e he
      simp [isPeeringEdgeOf, ht]
    · rw [if_neg hd]; rfl
  have hvpn : (if discover_vpn then vpnEdges accounts baselines vpns
      else []).filter (isPeeringEdgeOf pcx.peering_id) = [] := by
    by_cases hd : discover_vpn = true
    · rw [if_pos hd, List.filter_eq_nil_iff]
      intro e he
      have ht := vpnEdges_type accounts baselines vpns e he
      simp [isPeeringEdgeOf, ht]
    · rw [if_neg hd]; rfl
  have hpl : (if discover_privatelink then plEdges accounts baselines pls
      else []).filter (isPeeringEdgeOf pcx.peering_id) = [] := by
    by_cases hd : discover_privatelink = true
    · rw [if_pos hd, List.filter_eq_nil_iff]
      intro e he
      have ht := plEdges_type accounts baselines pls e he
      simp [isPeeringEdgeOf, ht]
    · rw [if_neg hd]; rfl
  have hnd : ((discoverVpcPeeringConnections peeringResponses).map
      (fun p => p.peering_id)).Nodup := dedupPcx_ids_nodup _ []
  rw [htgw, hvpn, hpl, if_pos rfl,
    peeringEdges_filter_of_nodup accounts baselines
      (discoverVpcPeeringConnections peeringResponses) pcx hnd h]
  simp

/-- A concrete active peering connection for the C6 witness. -/
def witC6Pcx : PCXInfo :=
  ⟨"pcx-1", "active", "vpc-a", "111111111111", "vpc-b", "222222222222", []⟩

/-- Witness for C6 at one concrete discovered peering connection. -/
theorem peering_connection_two_directed_edges_witness :
    witC6Pcx ∈ discoverVpcPeeringConnections [[witC6Pcx]]
    ∧ (buildConnectivityMap [] [] [[witC6Pcx]] [] [] [] false true false
        false).filter (isPeeringEdgeOf witC6Pcx.peering_id)
      = [mkPeeringEdge [] [] witC6Pcx witC6Pcx.requester_vpc witC6Pcx.accepter_vpc,
         mkPeeringEdge [] [] witC6Pcx witC6Pcx.accepter_vpc witC6Pcx.requester_vpc] :=
  ⟨by decide,
   peering_connection_two_directed_edges [] [] [[witC6Pcx]] [] [] [] false
     false false witC6Pcx (by decide)⟩

/-! ## C3 and C9: test-plan export (orchestrator.py `export_test_plan`) -/

/-- A connectivity pattern as read back from the golden-path document by
`export_test_plan`. -/
structure GPPattern where
  source_vpc_id : String
  source_account_name : String
  dest_vpc_id : String
  dest_account_name : String
  connection_type : String
  connection_id : String
  expected_reachable : Bool
  traffic_observed : Bool
  ports_observed : Finset Int
  ports_allowed : Finset Int
deriving DecidableEq

/-- One generated test-plan entry (`port = none` is a protocol-level
test). -/
structure PlanTest where
  id : Nat
  enabled : Bool
  source_vpc : String
  source_account : String
  dest_vpc : String
  dest_account : String
  connection_type : String
  connection_id : String
  protocol : String
  port : Option Int
deriving DecidableEq

/-- `conn_type_aliases` normalisation ("peering"→"pcx",
"privatelink"→"vpce"). -/
def normalizeConnType (ct : String) : String :=
  if ct = "peering" then "pcx" else if ct = "privatelink" then "vpce" else ct

/-- The protocol-level test emitted for a pattern. -/
def protoTest (p : GPPattern) (tid : Nat) : PlanTest :=
  { id := tid, enabled := true, source_vpc := p.source_vpc_id,
    source_account := p.source_account_name, dest_vpc := p.dest_vpc_id,
    dest_account := p.dest_account_name, connection_type := p.connection_type,
    connection_id := p.connection_id, protocol := "-1", port := none }

/-- One port-specific test emitted for a pattern. -/
def portTest (p : GPPattern) (tid : Nat) (port : Int) : PlanTest :=
  { id := tid, enabled := true, source_vpc := p.source_vpc_id,
    source_account := p.source_account_name, dest_vpc := p.dest_vpc_id,
    dest_account := p.dest_account_name, connection_type := p.connection_type,
    connection_id := p.connection_id, protocol := "tcp", port := some port }

/-- The port-test loop `for port in sorted(ports_to_test)` with its
monotonically increasing ids. -/
def portTests (p : GPPattern) : Nat → List Int → List PlanTest
  | _, [] => []
  | tid, port :: rest => portTest p tid port :: portTests p (tid + 1) rest

/-- The `ports_to_test` precedence of `export_test_plan`: explicit `ports`
filter intersected with `ports_allowed`, else `test_ports` override, else
the full `ports_allowed` set, else `ports_observed` when traffic was
observed, else nothing. -/
def portsToTest (p : GPPattern) (ports test_ports : List Int) : Finset Int :=
  if ports ≠ [] then p.ports_allowed ∩ ports.toFinset
  else if test_ports ≠ [] then test_ports.toFinset
  else if p.ports_allowed ≠ ∅ then p.ports_allowed
  else if p.traffic_observed then p.ports_observed
  else ∅

/-- The pattern loop of `export_test_plan`, with its four `continue`
filters in source order (expected, only-active, connection-type, ports)
followed by the emission of the optional protocol-level test and the
port-specific tests. -/
def exportAux (only_active : Bool) (ports : List Int) (normalized : List String)
    (test_ports : List Int) (include_protocol_level : Bool) :
    List GPPattern → Nat → List PlanTest
  | [], _ => []
  | p :: rest, tid =>
      if ¬ p.expected_reachable then
        exportAux only_active ports normalized test_ports include_protocol_level rest tid
      else if only_active ∧ ¬ p.traffic_observed then
        exportAux only_active ports normalized test_ports include_protocol_level rest tid
      else if normalized ≠ [] ∧ p.connection_type ∉ normalized then
        exportAux only_active ports normalized test_ports include_protocol_level rest tid
      else if ports ≠ [] ∧ p.ports_allowed ∩ ports.toFinset = ∅ then
        exportAux only_active ports normalized test_ports include_protocol_level rest tid
      else
        let protoTests := if include_protocol_level then [protoTest p tid] else []
        let tid1 := if include_protocol_level then tid + 1 else tid
        let pts := (portsToTest p ports test_ports).sort (· ≤ ·)
        protoTests ++ portTests p tid1 pts
          ++ exportAux only_active ports normalized test_ports
              include_protocol_level rest (tid1 + pts.length)

/-- `AFTTestOrchestrator.export_test_plan` restricted to its pure output
(the generated `tests` list; ids start at 1).  Absent filters are the empty
list, matching Python falsiness of `None` and `[]`. -/
def exportTestPlan (patterns : List GPPattern) (only_active : Bool)
    (ports : List Int) (connection_types : List String)
    (test_ports : List Int) (include_protocol_level : Bool) : List PlanTest :=
  exportAux only_active ports (connection_types.map normalizeConnType)
    test_ports include_protocol_level patterns 1

/-- The pattern loop with the only-active and connection-type filters
evaluated in the opposite order (for the order-independence claim). -/
def exportAuxSwapped (only_active : Bool) (ports : List Int)
    (normalized : List String) (test_ports : List Int)
    (include_protocol_level : Bool) : List GPPattern → Nat → List PlanTest
  | [], _ => []
  | p :: rest, tid =>
      if ¬ p.expected_reachable then
        exportAuxSwapped only_active ports normalized test_ports include_protocol_level rest tid
      else if normalized ≠ [] ∧ p.connection_type ∉ normalized then
        exportAuxSwapped only_active ports normalized test_ports include_protocol_level rest tid
      else if only_active ∧ ¬ p.traffic_observed then
        exportAuxSwapped only_active ports normalized test_ports include_protocol_level rest tid
      else if ports ≠ [] ∧ p.ports_allowed ∩ ports.toFinset = ∅ then
        exportAuxSwapped only_active ports normalized test_ports include_protocol_level rest tid
      else
        let protoTests := if include_protocol_level then [protoTest p tid] else []
        let tid1 := if include_protocol_level then tid + 1 else tid
        let pts := (portsToTest p ports test_ports).sort (· ≤ ·)
        protoTests ++ portTests p tid1 pts
          ++ exportAuxSwapped only_active ports normalized test_ports
              include_protocol_level rest (tid1 + pts.length)

/-- `export_test_plan` with the two filters evaluated in swapped order. -/
def exportTestPlanSwapped (patterns : List GPPattern) (only_active : Bool)
    (ports : List Int) (connection_types : List String)
    (test_ports : List Int) (include_protocol_level : Bool) : List PlanTest :=
  exportAuxSwapped only_active ports (connection_types.map normalizeConnType)
    test_ports include_protocol_level patterns 1

/-- The two edge filters of `export_test_plan` commute: evaluating the
only-active filter before or after the connection-type filter yields the
same plan. -/
theorem exportAux_swap_filters (only_active : Bool) (ports : List Int)
    (normalized : List String) (test_ports : List Int) (ipl : Bool) :
    ∀ (patterns : List GPPattern) (tid : Nat),
      exportAux only_active ports normalized test_ports ipl patterns tid
        = exportAuxSwapped only_active ports normalized test_ports ipl patterns tid := by
  intro patterns
  induction patterns with
  | nil => intro tid; rfl
  | cons p rest ih =>
    intro tid
    simp only [exportAux, exportAuxSwapped]
    split_ifs <;> first | exact ih _ | simp [ih]

/-- C9: exporting a test plan with `only_active=true` together with
`connection_types=['tgw']` yields the same tests regardless of the order
in which the two filters are evaluated. -/
theorem export_test_plan_filter_order_independent
    (patterns : List GPPattern) (ports test_ports : List Int) (ipl : Bool) :
    exportTestPlan patterns true ports ["tgw"] test_ports ipl
      = exportTestPlanSwapped patterns true ports ["tgw"] test_ports ipl :=
  exportAux_swap_filters true ports (["tgw"].map normalizeConnType)
    test_ports ipl patterns 1

/-- A pattern whose allowed ports are disjoint from the requested ports
filter. -/
def cexC3Pattern : GPPattern :=
  ⟨"vpc-a", "acct-a", "vpc-b", "acct-b", "tgw", "tgw-1", true, true, ∅, {80}⟩

/-- C3 counterexample: with `ports=[443]` and `include_protocol_level=true`
an expected, traffic-bearing edge whose `ports_allowed={80}` is disjoint
from the filter contributes no test at all — not even a protocol-level
test — contradicting the claim that such an edge may still emit one. -/
theorem export_ports_filter_empty_intersection_drops_protocol_test :
    exportTestPlan [cexC3Pattern] false [443] [] [] true = []
    ∧ cexC3Pattern.expected_reachable = true
    ∧ cexC3Pattern.ports_allowed ∩ ([443] : List Int).toFinset = ∅ := by
  refine ⟨by decide, rfl, by decide⟩

/-- An edge whose allowed ports are disjoint from a non-empty `ports`
filter is skipped before any emission, so removing it leaves the exported
plan unchanged. -/
theorem exportAux_drop_filtered (oa ipl : Bool) (ports : List Int)
    (nm : List String) (tps : List Int) (p : GPPattern)
    (hp : ports ≠ []) (hint : p.ports_allowed ∩ ports.toFinset = ∅) :
    ∀ (pre post : List GPPattern) (tid : Nat),
      exportAux oa ports nm tps ipl (pre ++ p :: post) tid
        = exportAux oa ports nm tps ipl (pre ++ post) tid := by
  intro pre
  induction pre with
  | nil =>
    intro post tid
    simp only [List.nil_append]
    conv_lhs => rw [exportAux]
    by_cases h1 : ¬ (p.expected_reachable = true)
    · rw [if_pos h1]
    · rw [if_neg h1]
      by_cases h2 : (oa = true ∧ ¬ (p.traffic_observed = true))
      · rw [if_pos h2]
      · rw [if_neg h2]
        by_cases h3 : (nm ≠ [] ∧ p.connection_type ∉ nm)
        · rw [if_pos h3]
        · rw [if_neg h3]
          rw [if_pos ⟨hp, hint⟩]
  | cons q pre ih =>
    intro post tid
    simp only [List.cons_append, exportAux]
    split_ifs <;> first | exact ih _ _ | simp [ih]

/-- C3 (amended): when an explicit ports filter is given and its
intersection with an edge's `ports_allowed` is empty, `export_test_plan`
drops the edge entirely: it contributes neither a port-specific nor a
protocol-level test, even when `include_protocol_level=true`. -/
theorem export_ports_filter_empty_intersection_drops_edge
    (pre post : List GPPattern) (p : GPPattern) (oa ipl : Bool)
    (ports test_ports : List Int) (cts : List String)
    (hp : ports ≠ [])
    (hint : p.ports_allowed ∩ ports.toFinset = ∅) :
    exportTestPlan (pre ++ p :: post) oa ports cts test_ports ipl
      = exportTestPlan (pre ++ post) oa ports cts test_ports ipl :=
  exportAux_drop_filtered oa ipl ports (cts.map normalizeConnType) test_ports
    p hp hint pre post 1

/-- Witness for C3 (amended) at a concrete filtered pattern. -/
theorem export_ports_filter_empty_intersection_drops_edge_witness :
    (([443] : List Int) ≠ [])
    ∧ cexC3Pattern.ports_allowed ∩ ([443] : List Int).toFinset = ∅
    ∧ exportTestPlan ([] ++ cexC3Pattern :: []) true [443] ["tgw"] [] true
        = exportTestPlan ([] ++ []) true [443] ["tgw"] [] true :=
  ⟨by decide, by decide,
   export_ports_filter_empty_intersection_drops_edge [] [] cexC3Pattern true
     true [443] [] ["tgw"] (by decide) (by decide)⟩
